import Mathlib

/-!
Verification development for the AI web-testing agent
(`core/ai_agent.py` and `app.py`).

The embedding models the agent loop, the action dispatch, the report
data structures and the Flask request handler as pure Lean functions.
External collaborators are abstracted exactly as the specification
prescribes:

* the browser driver is a `Browser` state plus an `Env` of driver
  primitives (`driver.get`, `find_element` wait outcome, page updates
  caused by clicks and typing);
* the language-model service is an oracle `Nat → ModelResult` giving
  the outcome of the i-th remote call of the run (the code performs
  exactly one remote call per loop iteration);
* BeautifulSoup is abstracted by `Env.soup`, returning the tag list of
  a markup string in document order (the HTML parsing library is out of
  scope; the agent's own filtering, labelling and truncation logic is
  modelled faithfully);
* `urllib.parse.urljoin` is modelled for absolute `scheme://` bases and
  plain relative paths (no dot-segment resolution, queries or
  fragments), which covers every use in this development.

Python `eval(f"self.{action_code}")` is modelled by `parseCall`
followed by `evalSelf`: the recognised call shapes are the four grammar
actions plus the agent's own other reachable methods (`get_page_state`,
`report_action`) — the code places no guard between the model text and
any attribute of the agent — and any other string is modelled as
raising (AttributeError / TypeError / SyntaxError), which the loop
catches as a fatal dispatch error.
-/

namespace AiAgent

/-! ### Character-list string helpers (models of the Python string operations used) -/

/-- Drop `p` as a prefix of `s`, if it is one. -/
def stripPre : List Char → List Char → Option (List Char)
  | [], s => some s
  | _ :: _, [] => none
  | p :: ps, c :: cs => if p = c then stripPre ps cs else none

/-- Split `s` at the first occurrence of `sep`:
`splitFirst sep s = some (l, r)` with `s = l ++ sep ++ r`. -/
def splitFirst (sep : List Char) : List Char → Option (List Char × List Char)
  | [] =>
    match stripPre sep [] with
    | some r => some ([], r)
    | none => none
  | c :: cs =>
    match stripPre sep (c :: cs) with
    | some r => some ([], r)
    | none =>
      match splitFirst sep cs with
      | some (l, r) => some (c :: l, r)
      | none => none

/-- Drop `p` as a suffix of `s`, if it is one. -/
def stripSuf (p s : List Char) : Option (List Char) :=
  (stripPre p.reverse s.reverse).map List.reverse

/-- Split `s` at the last occurrence of the character `c`. -/
def lastSplit (c : Char) (s : List Char) : Option (List Char × List Char) :=
  match splitFirst [c] s.reverse with
  | some (postRev, preRev) => some (preRev.reverse, postRev.reverse)
  | none => none

/-- `t` is a suffix of `s` (used to state "url ends in `/contact`"). -/
def endsWithStr (t s : String) : Bool := t.data.isSuffixOf s.data

/-- Model of Python `str.strip()`: remove leading and trailing whitespace. -/
def strTrim (s : String) : String :=
  ⟨((s.data.dropWhile Char.isWhitespace).reverse.dropWhile Char.isWhitespace).reverse⟩

/-- Model of Python `x or y` on strings, where the empty string is falsy. -/
def orStr (x y : String) : String := if x == "" then y else x

/-- Model of `urllib.parse.urljoin(base, rel)`, restricted to an absolute
`scheme://` base and a relative path without dot segments, query or
fragment (the only shapes this program produces). -/
def urljoin (base rel : String) : String :=
  if (splitFirst "://".data rel.data).isSome then rel
  else
    match splitFirst "://".data base.data with
    | none => rel
    | some (scheme, rest) =>
      if rel.data.head? == some '/' then
        match splitFirst "/".data rest with
        | some (host, _) => (⟨scheme⟩ : String) ++ "://" ++ (⟨host⟩ : String) ++ rel
        | none => base ++ rel
      else
        match lastSplit '/' rest with
        | some (dir, _) => (⟨scheme⟩ : String) ++ "://" ++ (⟨dir⟩ : String) ++ "/" ++ rel
        | none => base ++ "/" ++ rel

/-! ### Data model -/

/-- One log entry of the report: `{"step": …, "action": …, "status": …,
"url_after": …}` as built by `report_action`. -/
structure ActionRecord where
  step : Nat
  action : String
  status : String
  url_after : String
deriving DecidableEq

/-- `self.test_report = {"url": start_url, "actions": [], "summary": ""}`. -/
structure TestReport where
  url : String
  actions : List ActionRecord
  summary : String
deriving DecidableEq

/-- The state of the Chrome session owned by the agent.  `sessionOpen`
records whether `driver.quit()` has been called yet. -/
structure Browser where
  current_url : String
  title : String
  page_source : String
  sessionOpen : Bool
deriving DecidableEq

/-- A tag as produced by the HTML parsing library: its name, the
attributes the agent reads (`aria-label`, `placeholder`, `name`, `id`,
each absent or present) and its visible text (`tag.text`, possibly
empty). -/
structure Tag where
  name : String
  ariaLabel : Option String
  text : String
  placeholder : Option String
  nameAttr : Option String
  id : Option String
deriving DecidableEq

/-- The agent's instance state (`AITestingAgent`).  The `genai` client is
not part of the state: it is only used inside the remote call, which is
abstracted by the per-run oracle. -/
structure Agent where
  start_url : String
  test_report : TestReport
  history : String
  max_steps : Nat
  driver : Browser
deriving DecidableEq

/-- Outcome of one remote `generate_content` call, as observed by
`generate_action`: the response text, or a raised exception. -/
inductive ModelResult where
  | ok (text : String)
  | exn (msg : String)
deriving DecidableEq

/-- The external world of one run: the browser driver primitives and the
HTML parser.  `doGet` returns the `(current_url, title, page_source)`
triple after `driver.get`, or `none` when the navigation raises;
`findOk` tells whether the bounded `WebDriverWait` finds the element;
`afterClick` / `afterType` give the page resulting from a successful
click / send_keys; `soup` is the tag list BeautifulSoup extracts from a
markup string, in document order. -/
structure Env where
  doGet : Browser → String → Option (String × String × String)
  findOk : Browser → String → String → Bool
  afterClick : Browser → String → String → String × String × String
  afterType : Browser → String → String → String → String × String × String
  soup : String → List Tag

/-- Apply a `(current_url, title, page_source)` page update to the
browser; the session flag is untouched (only `quit` changes it). -/
def applyPage (b : Browser) (p : String × String × String) : Browser :=
  { current_url := p.1, title := p.2.1, page_source := p.2.2, sessionOpen := b.sessionOpen }

/-- `driver.quit()`. -/
def quitDriver (a : Agent) : Agent :=
  { a with driver := { a.driver with sessionOpen := false } }

/-- Result of `run_tests`: either the method returned (the code reaches
`self.driver.quit(); return self.test_report`), or an uncaught exception
escaped it, carrying the agent state at the moment of escape. -/
inductive RunOutcome where
  | returned (a : Agent)
  | raised (a : Agent) (msg : String)
deriving DecidableEq

/-- The agent state carried by a run outcome. -/
def RunOutcome.final : RunOutcome → Agent
  | .returned a => a
  | .raised a _ => a

/-- Whether `run_tests` returned normally. -/
def RunOutcome.isReturned : RunOutcome → Bool
  | .returned _ => true
  | .raised _ _ => false

/-- Whether an exception escaped `run_tests`. -/
def RunOutcome.isRaised : RunOutcome → Bool
  | .returned _ => false
  | .raised _ _ => true

/-! ### Element extraction (`get_page_state` internals) -/

/-- `tag.get('aria-label') or tag.text or tag.get('placeholder') or
tag.get('name')` — Python `or` chain under string truthiness (a missing
attribute is `None`, falsy like the empty string). -/
def tagLabel (t : Tag) : String :=
  orStr (t.ariaLabel.getD "")
    (orStr t.text (orStr (t.placeholder.getD "") (t.nameAttr.getD "")))

/-- One line of the element list:
`f"<{tag.name}> Text: '{label.strip()}' ID: '{tag.get('id', 'N/A')}'"`. -/
def elementEntry (t : Tag) (label : String) : String :=
  "<" ++ t.name ++ "> Text: \x27" ++ strTrim label ++ "\x27 ID: \x27" ++ t.id.getD "N/A" ++ "\x27"

/-- The `interactable_elements` list: anchor, button and input tags in
document order, each rendered with its resolved label, keeping only
truthy labels shorter than 50 characters. -/
def interactable_elements (tags : List Tag) : List String :=
  ((tags.filter fun t => t.name == "a" || t.name == "button" || t.name == "input").filterMap
    fun t =>
      let label := tagLabel t
      if label != "" && label.length < 50 then some (elementEntry t label) else none)

/-- The element lines actually shown to the model:
`interactable_elements[:10]`. -/
def shownElements (tags : List Tag) : List String :=
  (interactable_elements tags).take 10

/-- `get_page_state`: the textual page observation built from
`driver.current_url`, `driver.title` and the parsed `driver.page_source`.
Pure: BeautifulSoup never fails, and the driver property reads are field
reads of the browser state. -/
def get_page_state (env : Env) (a : Agent) : String :=
  let url := a.driver.current_url
  let title := a.driver.title
  let elems := shownElements (env.soup a.driver.page_source)
  "Current URL: " ++ url ++ "\nPage Title: " ++ title
    ++ "\nVisible Interactable Elements (Top 10):\n" ++ String.intercalate "\n" elems

/-! ### Reporting and the action methods -/

/-- `report_action`: append one record (step number `len(actions) + 1`,
`url_after` read from the driver) and extend the history text. -/
def report_action (a : Agent) (description status : String) : Agent :=
  let step := a.test_report.actions.length + 1
  let log : ActionRecord :=
    { step := step, action := description, status := status, url_after := a.driver.current_url }
  { a with
    test_report := { a.test_report with actions := a.test_report.actions ++ [log] },
    history := a.history ++ "Step " ++ toString step ++ " (" ++ status ++ "): "
      ++ description ++ "\n" }

/-- `click_element`: bounded wait then click (`PASS`, the page may
change), or `TimeoutException` / `NoSuchElementException` (`ERROR`).
`By` constants are modelled by their attribute names. -/
def click_element (env : Env) (a : Agent) (by_type locator : String) : Agent :=
  if env.findOk a.driver by_type locator then
    let a := { a with driver := applyPage a.driver (env.afterClick a.driver by_type locator) }
    report_action a ("Clicked element found by " ++ by_type ++ "=\x27" ++ locator ++ "\x27.") "PASS"
  else
    report_action a ("Failed to click element " ++ locator
      ++ ". Element not found or timed out.") "ERROR"

/-- `type_text`: bounded wait, clear, send keys (`PASS`), or element not
found (`ERROR`). -/
def type_text (env : Env) (a : Agent) (by_type locator text : String) : Agent :=
  if env.findOk a.driver by_type locator then
    let a := { a with driver := applyPage a.driver (env.afterType a.driver by_type locator text) }
    report_action a ("Typed text into field " ++ locator ++ ".") "PASS"
  else
    report_action a ("Failed to type text into " ++ locator ++ ". Element not found.") "ERROR"

/-- `navigate_to`: resolve against the base URL and `driver.get`.  A
navigation exception is not caught locally and propagates to the loop. -/
def navigate_to (env : Env) (a : Agent) (path : String) : Except String Agent :=
  let new_url := urljoin a.start_url path
  match env.doGet a.driver new_url with
  | none => .error ("WebDriverException: " ++ new_url)
  | some p =>
    let a := { a with driver := applyPage a.driver p }
    .ok (report_action a ("Navigated to: " ++ new_url) "PASS")

/-- `finish_testing`: set the report summary, then emit the terminal
record. -/
def finish_testing (a : Agent) (summary : String) : Agent :=
  let a := { a with test_report := { a.test_report with summary := summary } }
  report_action a summary "FINISH"

/-- `generate_action`: one synchronous remote call.  On success the
response text is returned unchanged; on any raised exception the method
logs a `FATAL_ERROR` record itself and returns the canned
`finish_testing` call, never propagating the exception. -/
def generate_action (a : Agent) (res : ModelResult) : Agent × String :=
  match res with
  | .ok text => (a, text)
  | .exn e =>
    (report_action a ("Error calling Gemini: " ++ e) "FATAL_ERROR",
     "finish_testing(\x27AI communication failed.\x27)")

/-! ### The dispatch of the raw model string -/

/-- The call shapes reachable through `eval(f"self.{action_code}")`: the
four grammar actions plus the agent's other callable methods that take
string literals (`get_page_state`, `report_action`). -/
inductive Call where
  | click_element (by_type locator : String)
  | type_text (by_type locator text : String)
  | navigate_to (path : String)
  | finish_testing (summary : String)
  | get_page_state
  | report_action (description status : String)
deriving DecidableEq

/-- Recognise one of the modelled call shapes in a raw string.  A string
matching none of them is modelled as raising when evaluated
(AttributeError for an unknown name, TypeError / SyntaxError for a
malformed call). -/
def parseCallAux (s : List Char) : Option Call :=
  if s = "get_page_state()".data then some .get_page_state
  else
    match stripPre "navigate_to(\x27".data s with
    | some r => (stripSuf "\x27)".data r).map fun m => .navigate_to ⟨m⟩
    | none =>
      match stripPre "finish_testing(\x27".data s with
      | some r => (stripSuf "\x27)".data r).map fun m => .finish_testing ⟨m⟩
      | none =>
        match stripPre "click_element(By.".data s with
        | some r =>
          match splitFirst ", \x27".data r with
          | some (byT, rest) =>
            (stripSuf "\x27)".data rest).map fun loc => .click_element ⟨byT⟩ ⟨loc⟩
          | none => none
        | none =>
          match stripPre "type_text(By.".data s with
          | some r =>
            match splitFirst ", \x27".data r with
            | some (byT, rest) =>
              match splitFirst "\x27, \x27".data rest with
              | some (loc, rest2) =>
                (stripSuf "\x27)".data rest2).map fun txt => .type_text ⟨byT⟩ ⟨loc⟩ ⟨txt⟩
              | none => none
            | none => none
          | none =>
            match stripPre "report_action(\x27".data s with
            | some r =>
              match splitFirst "\x27, \x27".data r with
              | some (d, rest) =>
                (stripSuf "\x27)".data rest).map fun st => .report_action ⟨d⟩ ⟨st⟩
              | none => none
            | none => none

/-- `parseCall` on a `String`. -/
def parseCall (s : String) : Option Call := parseCallAux s.data

/-- The name before the opening parenthesis of a raw action string. -/
def actionName (s : String) : String := ⟨s.data.takeWhile fun c => !(c == '(')⟩

/-- The closed Action Grammar of the specification. -/
def grammarNames : List String :=
  ["click_element", "type_text", "navigate_to", "finish_testing"]

/-- Model of `eval(f"self.{action_code}")`: dispatch a recognised call to
the corresponding method (a `get_page_state` call computes the page text
and discards it), and raise on anything else.  A navigation exception
raised inside `navigate_to` also surfaces here. -/
def evalSelf (env : Env) (a : Agent) (code : String) : Except String Agent :=
  match parseCall code with
  | some (.click_element byT loc) => .ok (click_element env a byT loc)
  | some (.type_text byT loc txt) => .ok (type_text env a byT loc txt)
  | some (.navigate_to path) => navigate_to env a path
  | some (.finish_testing s) => .ok (finish_testing a s)
  | some .get_page_state =>
    let _value := get_page_state env a
    .ok a
  | some (.report_action d st) => .ok (report_action a d st)
  | none => .error ("AttributeError: \x27AITestingAgent\x27 object has no attribute \x27"
      ++ actionName code ++ "\x27")

/-! ### The agent loop -/

/-- The loop guard `self.test_report['actions'] and
self.test_report['actions'][-1]['status'] == "FINISH"`. -/
def lastIsFinish (a : Agent) : Bool :=
  match a.test_report.actions.getLast? with
  | some r => r.status == "FINISH"
  | none => false

/-- The `for step in range(self.max_steps)` loop of `run_tests`, with the
remaining iteration budget as fuel and `i` the index of the next remote
call.  Each iteration: break if the last record is `FINISH`; observe the
page; ask the model; evaluate the returned string, a raised evaluation
error being caught as one `FATAL_ERROR` record followed by `break`
(`time.sleep(3)` has no observable effect in the model). -/
def stepLoop (env : Env) (oracle : Nat → ModelResult) : Nat → Nat → Agent → Agent
  | 0, _, a => a
  | fuel + 1, i, a =>
    if lastIsFinish a then a
    else
      let _page_state := get_page_state env a
      let next := generate_action a (oracle i)
      match evalSelf env next.1 next.2 with
      | .ok a2 => stepLoop env oracle fuel (i + 1) a2
      | .error e =>
        report_action next.1
          ("CRITICAL ERROR executing AI code \x27" ++ next.2 ++ "\x27: " ++ e) "FATAL_ERROR"

/-- `run_tests`: initial navigation (an exception here escapes the
method before `driver.quit()` is ever reached), initial `PASS` record,
the bounded loop, then `driver.quit()` and return of the report. -/
def run_tests (env : Env) (oracle : Nat → ModelResult) (a : Agent) : RunOutcome :=
  match env.doGet a.driver a.start_url with
  | none => .raised a ("WebDriverException: " ++ a.start_url)
  | some p =>
    let a := { a with driver := applyPage a.driver p }
    let a := report_action a ("Initial navigation to: " ++ a.start_url) "PASS"
    .returned (quitDriver (stepLoop env oracle a.max_steps 0 a))

/-- `AITestingAgent.__init__`: fresh report, empty history, step budget
7, one newly created browser session (fresh Chrome tab on the blank
page).  The credential is read but not validated here, and the `genai`
client construction is abstracted into the remote-call oracle. -/
def initAgent (start_url : String) : Agent :=
  { start_url := start_url,
    test_report := { url := start_url, actions := [], summary := "" },
    history := "",
    max_steps := 7,
    driver := { current_url := "data:,", title := "", page_source := "", sessionOpen := true } }

/-! ### Shared auxiliary definitions for the statements -/

/-- Number of records with the given status. -/
def countStatus (l : List ActionRecord) (st : String) : Nat :=
  (l.filter fun r => r.status == st).length

/-- The step numbers of `l` are exactly `1..len(l)` in order. -/
def Stepped (l : List ActionRecord) : Prop :=
  l.map ActionRecord.step = List.range' 1 l.length

/-- The label the specification's priority policy assigns: the first
truthy value among accessible label, visible text, placeholder, name. -/
def specLabel (t : Tag) : String :=
  match [t.ariaLabel.getD "", t.text, t.placeholder.getD "", t.nameAttr.getD ""].find?
      (fun s => s != "") with
  | some s => s
  | none => ""

/-- A deterministic driver environment: every navigation succeeds and
lands on the requested URL, element waits time out, pages are empty. -/
def env0 : Env :=
  { doGet := fun _ u => some (u, "Example Domain", ""),
    findOk := fun _ _ _ => false,
    afterClick := fun b _ _ => (b.current_url, b.title, b.page_source),
    afterType := fun b _ _ _ => (b.current_url, b.title, b.page_source),
    soup := fun _ => [] }

/-! ### Helper lemmas -/

theorem filterMap_ite {α β : Type} (p : α → Bool) (f : α → β) (l : List α) :
    (l.filterMap fun x => if p x then some (f x) else none) = (l.filter p).map f := by
  induction l with
  | nil => simp
  | cons x xs ih =>
    by_cases h : p x <;> simp [List.filterMap_cons, List.filter_cons, h, ih]

theorem tagLabel_eq_specLabel (t : Tag) : tagLabel t = specLabel t := by
  simp only [tagLabel, specLabel, orStr, List.find?, bne]
  cases h1 : t.ariaLabel.getD "" == "" <;>
    cases h2 : t.text == "" <;>
      cases h3 : t.placeholder.getD "" == "" <;>
        cases h4 : t.nameAttr.getD "" == "" <;>
          (simp [h1, h2, h3, h4]; try exact eq_of_beq h4)

/-! ### Claim theorems -/

/-- C6: for every page markup (modelled by its parsed tag list), element
extraction shows `min(candidates, 10)` entries, the shown list is a
prefix of the candidate list (document order preserved), the candidates
are exactly the anchor/button/input tags with a truthy label shorter
than 50 characters rendered with that label, and the label is the first
truthy value of the priority chain accessible label → visible text →
placeholder → name. -/
theorem C6_element_extraction (tags : List Tag) :
    (shownElements tags).length = min (interactable_elements tags).length 10
    ∧ (∃ rest, interactable_elements tags = shownElements tags ++ rest)
    ∧ interactable_elements tags
        = (((tags.filter fun t => t.name == "a" || t.name == "button" || t.name == "input").filter
            fun t => tagLabel t != "" && (tagLabel t).length < 50).map
          (fun t => elementEntry t (tagLabel t)))
    ∧ ∀ t : Tag, tagLabel t = specLabel t := by
  refine ⟨?_, ⟨(interactable_elements tags).drop 10, ?_⟩, ?_, fun t => tagLabel_eq_specLabel t⟩
  · simp [shownElements, Nat.min_comm]
  · simp [shownElements]
  · exact filterMap_ite _ _ _

/-- The scripted model of the C7 scenario: `navigate_to('contact')` at
the first decision, `finish_testing('No issues found')` at the second. -/
def c7oracle : Nat → ModelResult
  | 0 => .ok "navigate_to(\x27contact\x27)"
  | 1 => .ok "finish_testing(\x27No issues found\x27)"
  | _ => .exn "unreached"

/-- A variant of the scenario model that differs from `c7oracle` only at
decisions the run never reaches. -/
def c7oracleB : Nat → ModelResult
  | 0 => .ok "navigate_to(\x27contact\x27)"
  | 1 => .ok "finish_testing(\x27No issues found\x27)"
  | _ => .ok "click_element(By.ID, \x27x\x27)"

/-- The agent state at the end of the C7 scenario run. -/
def c7final : Agent := (run_tests env0 c7oracle (initAgent "https://example.test")).final

/-- C7: the scenario run from `https://example.test` returns a report of
exactly 3 records — initial navigation `PASS`, navigate `PASS` with
`url_after` ending in `/contact` (resolved against the base URL), finish
`FINISH` — with summary `No issues found`; the budget is 7 and the run
never consumes a third decision (changing the model's answers from
decision 3 on leaves the whole outcome unchanged). -/
theorem C7_scenario :
    (run_tests env0 c7oracle (initAgent "https://example.test")).isReturned = true
    ∧ c7final.test_report.actions.length = 3
    ∧ c7final.test_report.actions.map ActionRecord.status = ["PASS", "PASS", "FINISH"]
    ∧ c7final.test_report.actions.map ActionRecord.url_after
        = ["https://example.test", "https://example.test/contact", "https://example.test/contact"]
    ∧ endsWithStr "/contact" ((c7final.test_report.actions.map ActionRecord.url_after).getD 1 "")
        = true
    ∧ c7final.test_report.summary = "No issues found"
    ∧ (initAgent "https://example.test").max_steps = 7
    ∧ run_tests env0 c7oracle (initAgent "https://example.test")
        = run_tests env0 c7oracleB (initAgent "https://example.test") := by
  decide

/-! ### Loop step lemmas -/

theorem stepLoop_stop (env : Env) (oracle : Nat → ModelResult) (fuel i : Nat) (a : Agent)
    (h : lastIsFinish a = true) : stepLoop env oracle fuel i a = a := by
  cases fuel <;> simp [stepLoop, h]

theorem lastIsFinish_report_action (a : Agent) (d st : String) :
    lastIsFinish (report_action a d st) = (st == "FINISH") := by
  simp [lastIsFinish, report_action]

theorem lastIsFinish_finish_testing (a : Agent) (s : String) :
    lastIsFinish (finish_testing a s) = true := by
  simp [finish_testing, lastIsFinish_report_action]

theorem stepLoop_dispatch_error (env : Env) (oracle : Nat → ModelResult) (fuel i : Nat)
    (a : Agent) (s e : String)
    (hfin : lastIsFinish a = false) (hor : oracle i = .ok s)
    (herr : evalSelf env a s = .error e) :
    stepLoop env oracle (fuel + 1) i a
      = report_action a ("CRITICAL ERROR executing AI code \x27" ++ s ++ "\x27: " ++ e)
          "FATAL_ERROR" := by
  simp [stepLoop, hfin, hor, generate_action, herr]

theorem parse_canned :
    parseCall "finish_testing(\x27AI communication failed.\x27)"
      = some (.finish_testing "AI communication failed.") := by
  decide

/-- The scripted model of the C1 counterexample run: `get_page_state()`
(an agent method outside the Action Grammar) at the first decision, a
normal finish at the second. -/
def c1oracle : Nat → ModelResult
  | 0 => .ok "get_page_state()"
  | _ => .ok "finish_testing(\x27done\x27)"

/-- The agent state at the end of the C1 counterexample run. -/
def c1final : Agent := (run_tests env0 c1oracle (initAgent "https://example.test")).final

/-- C1 (counterexample): `get_page_state` is an action name outside the
Action Grammar, yet dispatching the raw string `get_page_state()` in a
run evaluates it as code against the agent: no `FATAL_ERROR` record is
appended at all and the run does not terminate there — the loop goes on
and a later `finish_testing` ends the run normally. -/
theorem C1_counterexample :
    grammarNames.contains (actionName "get_page_state()") = false
    ∧ (run_tests env0 c1oracle (initAgent "https://example.test")).isReturned = true
    ∧ countStatus c1final.test_report.actions "FATAL_ERROR" = 0
    ∧ c1final.test_report.actions.map ActionRecord.status = ["PASS", "FINISH"] := by
  decide

/-- C1 (amended): the raw model string is evaluated as code, not parsed
against the grammar; for every raw action string whose evaluation
raises — in particular every action name that is not an attribute of
the agent — the run appends exactly one `FATAL_ERROR` record (its final
record), terminates immediately, and the browser session is closed
afterward.  An out-of-grammar name that does name an agent attribute is
executed instead of rejected (see the counterexample). -/
theorem C1_amended_dispatch (env : Env) (oracle : Nat → ModelResult) (url s : String)
    (p : String × String × String)
    (hor : oracle 0 = .ok s) (hbad : parseCall s = none)
    (hnav : env.doGet (initAgent url).driver url = some p) :
    (run_tests env oracle (initAgent url)).isReturned = true
    ∧ countStatus (run_tests env oracle (initAgent url)).final.test_report.actions
        "FATAL_ERROR" = 1
    ∧ (run_tests env oracle (initAgent url)).final.test_report.actions.length = 2
    ∧ ((run_tests env oracle (initAgent url)).final.test_report.actions.getLast?.map
        ActionRecord.status) = some "FATAL_ERROR"
    ∧ (run_tests env oracle (initAgent url)).final.driver.sessionOpen = false := by
  have hnav' : env.doGet (initAgent url).driver (initAgent url).start_url = some p := hnav
  have a1 : Agent := { initAgent url with driver := applyPage (initAgent url).driver p }
  have hfin : lastIsFinish (report_action
      { initAgent url with driver := applyPage (initAgent url).driver p }
      ("Initial navigation to: " ++ url) "PASS") = false := by
    rw [lastIsFinish_report_action]; decide
  have herr : evalSelf env (report_action
        { initAgent url with driver := applyPage (initAgent url).driver p }
        ("Initial navigation to: " ++ url) "PASS") s
      = .error ("AttributeError: \x27AITestingAgent\x27 object has no attribute \x27"
          ++ actionName s ++ "\x27") := by
    simp [evalSelf, hbad]
  have hstep : stepLoop env oracle 7 0
      (report_action { initAgent url with driver := applyPage (initAgent url).driver p }
        ("Initial navigation to: " ++ url) "PASS")
      = report_action
          (report_action { initAgent url with driver := applyPage (initAgent url).driver p }
            ("Initial navigation to: " ++ url) "PASS")
          ("CRITICAL ERROR executing AI code \x27" ++ s ++ "\x27: "
            ++ ("AttributeError: \x27AITestingAgent\x27 object has no attribute \x27"
              ++ actionName s ++ "\x27")) "FATAL_ERROR" :=
    stepLoop_dispatch_error env oracle 6 0 _ s _ hfin hor herr
  have hrun : run_tests env oracle (initAgent url)
      = .returned (quitDriver (report_action
          (report_action { initAgent url with driver := applyPage (initAgent url).driver p }
            ("Initial navigation to: " ++ url) "PASS")
          ("CRITICAL ERROR executing AI code \x27" ++ s ++ "\x27: "
            ++ ("AttributeError: \x27AITestingAgent\x27 object has no attribute \x27"
              ++ actionName s ++ "\x27")) "FATAL_ERROR")) := by
    show (match env.doGet (initAgent url).driver (initAgent url).start_url with
      | none => RunOutcome.raised (initAgent url)
          ("WebDriverException: " ++ (initAgent url).start_url)
      | some p =>
        let a := { initAgent url with driver := applyPage (initAgent url).driver p }
        let a := report_action a ("Initial navigation to: " ++ a.start_url) "PASS"
        RunOutcome.returned (quitDriver (stepLoop env oracle a.max_steps 0 a))) = _
    rw [hnav']
    show RunOutcome.returned (quitDriver (stepLoop env oracle 7 0
      (report_action { initAgent url with driver := applyPage (initAgent url).driver p }
        ("Initial navigation to: " ++ url) "PASS"))) = _
    rw [hstep]
  rw [hrun]
  refine ⟨rfl, ?_, ?_, ?_, rfl⟩
  · simp [RunOutcome.final, quitDriver, countStatus, report_action, initAgent]
  · simp [RunOutcome.final, quitDriver, report_action, initAgent]
  · simp [RunOutcome.final, quitDriver, report_action, initAgent]

/-- Concrete witness environment items for the amended C1 theorem. -/
def cwBadOracle : Nat → ModelResult := fun _ => .ok "explode()"

/-- Witness for the amended C1 theorem at a concrete run: the model
answers `explode()`, whose evaluation raises. -/
theorem C1_amended_dispatch_witness :
    cwBadOracle 0 = .ok "explode()"
    ∧ parseCall "explode()" = none
    ∧ countStatus (run_tests env0 cwBadOracle
        (initAgent "https://example.test")).final.test_report.actions "FATAL_ERROR" = 1 :=
  ⟨rfl, by decide,
    (C1_amended_dispatch env0 cwBadOracle "https://example.test" "explode()"
      ("https://example.test", "Example Domain", "") rfl (by decide) rfl).2.1⟩

/-- The environment in which every navigation raises (for instance an
unresolvable host: `driver.get` throws `WebDriverException`). -/
def envNavFail : Env :=
  { doGet := fun _ _ => none,
    findOk := fun _ _ _ => false,
    afterClick := fun b _ _ => (b.current_url, b.title, b.page_source),
    afterType := fun b _ _ _ => (b.current_url, b.title, b.page_source),
    soup := fun _ => [] }

/-- C2 (code bug): when the initial `driver.get(self.start_url)` raises,
the exception escapes `run_tests` before the loop — and `driver.quit()`,
which is only reached after the loop, is never called: the session is
still open when the method is abandoned, leaking the browser process. -/
theorem C2_session_leak :
    (run_tests envNavFail c1oracle (initAgent "https://example.test")).isRaised = true
    ∧ (run_tests envNavFail c1oracle
        (initAgent "https://example.test")).final.driver.sessionOpen = true := by
  decide

/-- C3: when the remote model call raises, `generate_action` does not
propagate the exception: it appends exactly one `FATAL_ERROR` record and
returns the exact string `finish_testing('AI communication failed.')`;
evaluating that string makes the loop iteration end in `finish_testing`,
so the loop exits with a final `FINISH` record and the degraded summary,
never hanging or crashing. -/
theorem C3_remote_failure_graceful (env : Env) (oracle : Nat → ModelResult)
    (fuel i : Nat) (a : Agent) (m : String)
    (hor : oracle i = .exn m) (hfin : lastIsFinish a = false) :
    (generate_action a (.exn m)).2 = "finish_testing(\x27AI communication failed.\x27)"
    ∧ countStatus (generate_action a (.exn m)).1.test_report.actions "FATAL_ERROR"
        = countStatus a.test_report.actions "FATAL_ERROR" + 1
    ∧ lastIsFinish (stepLoop env oracle (fuel + 1) i a) = true
    ∧ (stepLoop env oracle (fuel + 1) i a).test_report.summary = "AI communication failed."
    ∧ ∃ r1 r2 : ActionRecord,
        (stepLoop env oracle (fuel + 1) i a).test_report.actions
          = a.test_report.actions ++ [r1, r2]
        ∧ r1.status = "FATAL_ERROR" ∧ r2.status = "FINISH" := by
  have hstep : stepLoop env oracle (fuel + 1) i a
      = finish_testing (generate_action a (.exn m)).1 "AI communication failed." := by
    have heval : evalSelf env (generate_action a (.exn m)).1
        "finish_testing(\x27AI communication failed.\x27)"
        = .ok (finish_testing (generate_action a (.exn m)).1 "AI communication failed.") := by
      simp [evalSelf, parse_canned]
    simp only [stepLoop, hfin, Bool.false_eq_true, if_false, hor, generate_action, heval]
    exact stepLoop_stop env oracle fuel (i + 1) _ (lastIsFinish_finish_testing _ _)
  refine ⟨rfl, ?_, ?_, ?_, ?_⟩
  · simp [generate_action, countStatus, report_action, List.filter_append]
  · rw [hstep]; exact lastIsFinish_finish_testing _ _
  · rw [hstep]; simp [finish_testing, report_action]
  · rw [hstep]
    refine ⟨{ step := a.test_report.actions.length + 1,
              action := "Error calling Gemini: " ++ m,
              status := "FATAL_ERROR",
              url_after := a.driver.current_url },
            { step := a.test_report.actions.length + 2,
              action := "AI communication failed.",
              status := "FINISH",
              url_after := a.driver.current_url }, ?_, rfl, rfl⟩
    simp [finish_testing, report_action, generate_action]

/-- A model service that always raises. -/
def cwExnOracle : Nat → ModelResult := fun _ => .exn "boom"

/-- Witness for C3 at a concrete run state. -/
theorem C3_remote_failure_graceful_witness :
    cwExnOracle 0 = .exn "boom"
    ∧ lastIsFinish (initAgent "https://example.test") = false
    ∧ lastIsFinish (stepLoop env0 cwExnOracle 1 0 (initAgent "https://example.test")) = true :=
  ⟨rfl, by decide,
    (C3_remote_failure_graceful env0 cwExnOracle 0 0 (initAgent "https://example.test") "boom"
      rfl (by decide)).2.2.1⟩

/-! ### Evolution invariants of the loop -/

/-- How one run step may change the agent: the report's `url` is fixed,
records are only appended, and the summary changes only when a `FINISH`
record is among the appended ones (only `finish_testing` writes it). -/
def Evolves (a a' : Agent) : Prop :=
  a'.test_report.url = a.test_report.url
  ∧ ∃ t, a'.test_report.actions = a.test_report.actions ++ t
      ∧ (a'.test_report.summary = a.test_report.summary ∨ ∃ r ∈ t, r.status = "FINISH")

theorem evolves_rfl (a : Agent) : Evolves a a :=
  ⟨rfl, [], by simp, Or.inl rfl⟩

theorem evolves_trans {a b c : Agent} (h1 : Evolves a b) (h2 : Evolves b c) : Evolves a c := by
  obtain ⟨hu1, t1, he1, hs1⟩ := h1
  obtain ⟨hu2, t2, he2, hs2⟩ := h2
  refine ⟨hu2.trans hu1, t1 ++ t2, by rw [he2, he1, List.append_assoc], ?_⟩
  rcases hs2 with hs2 | ⟨r, hr, hrs⟩
  · rcases hs1 with hs1 | ⟨r, hr, hrs⟩
    · exact Or.inl (hs2.trans hs1)
    · exact Or.inr ⟨r, List.mem_append_left _ hr, hrs⟩
  · exact Or.inr ⟨r, List.mem_append_right _ hr, hrs⟩

theorem evolves_report_action (a : Agent) (d st : String) :
    Evolves a (report_action a d st) :=
  ⟨rfl, [_], rfl, Or.inl rfl⟩

theorem evolves_set_driver (a : Agent) (b : Browser) :
    Evolves a { a with driver := b } :=
  ⟨rfl, [], by simp, Or.inl rfl⟩

theorem evolves_click_element (env : Env) (a : Agent) (byT loc : String) :
    Evolves a (click_element env a byT loc) := by
  unfold click_element
  cases hf : env.findOk a.driver byT loc
  · simpa [hf] using evolves_report_action a _ _
  · simp only [hf, if_true]
    exact evolves_trans (evolves_set_driver a _) (evolves_report_action _ _ _)

theorem evolves_type_text (env : Env) (a : Agent) (byT loc txt : String) :
    Evolves a (type_text env a byT loc txt) := by
  unfold type_text
  cases hf : env.findOk a.driver byT loc
  · simpa [hf] using evolves_report_action a _ _
  · simp only [hf, if_true]
    exact evolves_trans (evolves_set_driver a _) (evolves_report_action _ _ _)

theorem evolves_navigate_to (env : Env) (a : Agent) (path : String) (a' : Agent)
    (h : navigate_to env a path = .ok a') : Evolves a a' := by
  simp only [navigate_to] at h
  cases hdo : env.doGet a.driver (urljoin a.start_url path)
  · rw [hdo] at h; cases h
  · rw [hdo] at h
    simp only [Except.ok.injEq] at h
    subst h
    exact evolves_trans (evolves_set_driver a _) (evolves_report_action _ _ _)

theorem evolves_finish_testing (a : Agent) (s : String) :
    Evolves a (finish_testing a s) := by
  refine ⟨rfl, [_], rfl, Or.inr ⟨_, List.mem_singleton_self _, rfl⟩⟩

theorem evolves_generate_action (a : Agent) (res : ModelResult) :
    Evolves a (generate_action a res).1 := by
  cases res
  · exact evolves_rfl a
  · exact evolves_report_action a _ _

theorem evolves_evalSelf (env : Env) (a : Agent) (code : String) (a' : Agent)
    (h : evalSelf env a code = .ok a') : Evolves a a' := by
  unfold evalSelf at h
  cases hp : parseCall code with
  | none => rw [hp] at h; cases h
  | some c =>
    rw [hp] at h
    cases c with
    | click_element byT loc =>
      simp only [Except.ok.injEq] at h; subst h; exact evolves_click_element env a byT loc
    | type_text byT loc txt =>
      simp only [Except.ok.injEq] at h; subst h; exact evolves_type_text env a byT loc txt
    | navigate_to path => exact evolves_navigate_to env a path a' h
    | finish_testing s =>
      simp only [Except.ok.injEq] at h; subst h; exact evolves_finish_testing a s
    | get_page_state =>
      simp only [Except.ok.injEq] at h; subst h; exact evolves_rfl a
    | report_action d st =>
      simp only [Except.ok.injEq] at h; subst h; exact evolves_report_action a d st

theorem evolves_stepLoop (env : Env) (oracle : Nat → ModelResult) :
    ∀ (fuel i : Nat) (a : Agent), Evolves a (stepLoop env oracle fuel i a) := by
  intro fuel
  induction fuel with
  | zero => intro i a; exact evolves_rfl a
  | succ n ih =>
    intro i a
    simp only [stepLoop]
    cases hf : lastIsFinish a
    · simp only [Bool.false_eq_true, if_false]
      cases heval : evalSelf env (generate_action a (oracle i)).1 (generate_action a (oracle i)).2 with
      | ok a2 =>
        exact evolves_trans
          (evolves_trans (evolves_generate_action a (oracle i))
            (evolves_evalSelf env _ _ a2 heval)) (ih (i + 1) a2)
      | error e =>
        exact evolves_trans (evolves_generate_action a (oracle i))
          (evolves_report_action _ _ _)
    · simp only [if_true]
      exact evolves_rfl a

theorem evolves_run_tests (env : Env) (oracle : Nat → ModelResult) (a a' : Agent)
    (h : run_tests env oracle a = .returned a') : Evolves a a' := by
  unfold run_tests at h
  cases hdo : env.doGet a.driver a.start_url with
  | none => rw [hdo] at h; cases h
  | some p =>
    rw [hdo] at h
    simp only [RunOutcome.returned.injEq] at h
    subst h
    exact evolves_trans (evolves_set_driver a _)
      (evolves_trans (evolves_report_action _ _ _) (evolves_stepLoop env oracle _ 0 _))

/-! ### Step-number invariant -/

theorem Stepped_append (l : List ActionRecord) (r : ActionRecord)
    (h : Stepped l) (hr : r.step = l.length + 1) : Stepped (l ++ [r]) := by
  unfold Stepped at *
  rw [List.map_append, h, List.length_append]
  simp [List.range'_1_concat, hr, Nat.add_comm]

theorem Stepped_report_action (a : Agent) (d st : String)
    (h : Stepped a.test_report.actions) :
    Stepped (report_action a d st).test_report.actions :=
  Stepped_append _ _ h rfl

theorem Stepped_click_element (env : Env) (a : Agent) (byT loc : String)
    (h : Stepped a.test_report.actions) :
    Stepped (click_element env a byT loc).test_report.actions := by
  unfold click_element
  cases hf : env.findOk a.driver byT loc
  · simpa [hf] using Stepped_report_action a _ _ h
  · simp only [hf, if_true]
    exact Stepped_report_action _ _ _ h

theorem Stepped_type_text (env : Env) (a : Agent) (byT loc txt : String)
    (h : Stepped a.test_report.actions) :
    Stepped (type_text env a byT loc txt).test_report.actions := by
  unfold type_text
  cases hf : env.findOk a.driver byT loc
  · simpa [hf] using Stepped_report_action a _ _ h
  · simp only [hf, if_true]
    exact Stepped_report_action _ _ _ h

theorem Stepped_navigate_to (env : Env) (a : Agent) (path : String) (a' : Agent)
    (hnav : navigate_to env a path = .ok a') (h : Stepped a.test_report.actions) :
    Stepped a'.test_report.actions := by
  simp only [navigate_to] at hnav
  cases hdo : env.doGet a.driver (urljoin a.start_url path)
  · rw [hdo] at hnav; cases hnav
  · rw [hdo] at hnav
    simp only [Except.ok.injEq] at hnav
    subst hnav
    exact Stepped_report_action _ _ _ h

theorem Stepped_finish_testing (a : Agent) (s : String)
    (h : Stepped a.test_report.actions) :
    Stepped (finish_testing a s).test_report.actions :=
  Stepped_report_action _ _ _ h

theorem Stepped_generate_action (a : Agent) (res : ModelResult)
    (h : Stepped a.test_report.actions) :
    Stepped (generate_action a res).1.test_report.actions := by
  cases res
  · exact h
  · exact Stepped_report_action _ _ _ h

theorem Stepped_evalSelf (env : Env) (a : Agent) (code : String) (a' : Agent)
    (heval : evalSelf env a code = .ok a') (h : Stepped a.test_report.actions) :
    Stepped a'.test_report.actions := by
  unfold evalSelf at heval
  cases hp : parseCall code with
  | none => rw [hp] at heval; cases heval
  | some c =>
    rw [hp] at heval
    cases c with
    | click_element byT loc =>
      simp only [Except.ok.injEq] at heval; subst heval
      exact Stepped_click_element env a byT loc h
    | type_text byT loc txt =>
      simp only [Except.ok.injEq] at heval; subst heval
      exact Stepped_type_text env a byT loc txt h
    | navigate_to path => exact Stepped_navigate_to env a path a' heval h
    | finish_testing s =>
      simp only [Except.ok.injEq] at heval; subst heval
      exact Stepped_finish_testing a s h
    | get_page_state =>
      simp only [Except.ok.injEq] at heval; subst heval; exact h
    | report_action d st =>
      simp only [Except.ok.injEq] at heval; subst heval
      exact Stepped_report_action a d st h

theorem Stepped_stepLoop (env : Env) (oracle : Nat → ModelResult) :
    ∀ (fuel i : Nat) (a : Agent), Stepped a.test_report.actions →
      Stepped (stepLoop env oracle fuel i a).test_report.actions := by
  intro fuel
  induction fuel with
  | zero => intro i a h; exact h
  | succ n ih =>
    intro i a h
    simp only [stepLoop]
    cases hf : lastIsFinish a
    · simp only [Bool.false_eq_true, if_false]
      cases heval : evalSelf env (generate_action a (oracle i)).1 (generate_action a (oracle i)).2 with
      | ok a2 =>
        exact ih (i + 1) a2
          (Stepped_evalSelf env _ _ a2 heval (Stepped_generate_action a (oracle i) h))
      | error e =>
        exact Stepped_report_action _ _ _ (Stepped_generate_action a (oracle i) h)
    · simp only [if_true]
      exact h

/-! ### More claim theorems -/

theorem stepLoop_oracle_congr (env : Env) (oracle oracle' : Nat → ModelResult) :
    ∀ (fuel i : Nat) (a : Agent), (∀ j, i ≤ j → j < i + fuel → oracle j = oracle' j) →
      stepLoop env oracle fuel i a = stepLoop env oracle' fuel i a := by
  intro fuel
  induction fuel with
  | zero => intro i a _; rfl
  | succ n ih =>
    intro i a h
    simp only [stepLoop]
    cases hf : lastIsFinish a
    · simp only [Bool.false_eq_true, if_false]
      rw [h i (Nat.le_refl i) (by omega)]
      cases heval : evalSelf env (generate_action a (oracle' i)).1 (generate_action a (oracle' i)).2
      · rfl
      · exact ih (i + 1) _ fun j hj1 hj2 => h j (by omega) (by omega)
    · rfl

/-- C4: the loop is bounded and terminates.  The step budget of a
constructed agent is 7; the whole run is insensitive to what the model
would answer at decisions beyond the step budget (the loop body runs at
most `max_steps` times regardless of model behavior); and as soon as
the last record is a `FINISH` record the loop exits immediately, for
any remaining budget. -/
theorem C4_bounded_termination (env : Env) (a : Agent) (url : String) :
    (initAgent url).max_steps = 7
    ∧ (∀ oracle oracle' : Nat → ModelResult,
        (∀ j, j < a.max_steps → oracle j = oracle' j) →
        run_tests env oracle a = run_tests env oracle' a)
    ∧ (∀ (oracle : Nat → ModelResult) (fuel i : Nat) (b : Agent),
        lastIsFinish b = true → stepLoop env oracle fuel i b = b) := by
  refine ⟨rfl, ?_, fun oracle fuel i b hb => stepLoop_stop env oracle fuel i b hb⟩
  intro oracle oracle' h
  unfold run_tests
  cases hdo : env.doGet a.driver a.start_url with
  | none => rfl
  | some p =>
    simp only [RunOutcome.returned.injEq]
    rw [stepLoop_oracle_congr env oracle oracle' _ 0 _ fun j _ hj => h j (by simpa using hj)]

/-- A model behavior for the C4 witness. -/
def c4oracleA : Nat → ModelResult := fun _ => .exn "a"

/-- A model behavior agreeing with `c4oracleA` on the first 7 decisions
only. -/
def c4oracleB : Nat → ModelResult := fun j => if j < 7 then .exn "a" else .ok "x"

/-- Witness for C4: two model behaviors agreeing on the first 7
decisions produce identical runs, and a loop state whose last record is
`FINISH` is returned unchanged. -/
theorem C4_bounded_termination_witness :
    run_tests env0 c4oracleA (initAgent "https://example.test")
      = run_tests env0 c4oracleB (initAgent "https://example.test")
    ∧ stepLoop env0 c4oracleA 5 2 c7final = c7final :=
  ⟨(C4_bounded_termination env0 (initAgent "https://example.test") "x").2.1 c4oracleA c4oracleB
      (by decide),
    (C4_bounded_termination env0 (initAgent "https://example.test") "x").2.2 c4oracleA 5 2 c7final
      (by decide)⟩

/-- Inversion of a returning run: the initial navigation succeeded and
the returned state is the loop result after the initial record, with
the session quit. -/
theorem run_tests_returned (env : Env) (oracle : Nat → ModelResult) (a a' : Agent)
    (h : run_tests env oracle a = .returned a') :
    ∃ p, env.doGet a.driver a.start_url = some p
      ∧ a' = quitDriver (stepLoop env oracle a.max_steps 0
          (report_action { a with driver := applyPage a.driver p }
            ("Initial navigation to: " ++ a.start_url) "PASS")) := by
  unfold run_tests at h
  cases hdo : env.doGet a.driver a.start_url with
  | none => rw [hdo] at h; cases h
  | some p =>
    rw [hdo] at h
    simp only [RunOutcome.returned.injEq] at h
    exact ⟨p, rfl, h.symm⟩

/-- C5: every run that returns a report returns a non-empty action list
whose step numbers are exactly `1..N` in order. -/
theorem C5_step_numbers (env : Env) (oracle : Nat → ModelResult) (url : String) (a' : Agent)
    (hrun : run_tests env oracle (initAgent url) = .returned a') :
    a'.test_report.actions ≠ [] ∧ Stepped a'.test_report.actions := by
  obtain ⟨p, hdo, ha'⟩ := run_tests_returned env oracle _ a' hrun
  subst ha'
  constructor
  · obtain ⟨-, t, he, -⟩ := evolves_stepLoop env oracle (initAgent url).max_steps 0
      (report_action { initAgent url with driver := applyPage (initAgent url).driver p }
        ("Initial navigation to: " ++ (initAgent url).start_url) "PASS")
    show (stepLoop env oracle (initAgent url).max_steps 0
      (report_action { initAgent url with driver := applyPage (initAgent url).driver p }
        ("Initial navigation to: " ++ (initAgent url).start_url) "PASS")).test_report.actions ≠ []
    rw [he]
    simp [report_action]
  · show Stepped (stepLoop env oracle (initAgent url).max_steps 0
      (report_action { initAgent url with driver := applyPage (initAgent url).driver p }
        ("Initial navigation to: " ++ (initAgent url).start_url) "PASS")).test_report.actions
    exact Stepped_stepLoop env oracle _ 0 _
      (Stepped_report_action _ _ _ (by simp [Stepped, initAgent]))

/-- Witness for C5 at a concrete run. -/
theorem C5_step_numbers_witness :
    c7final.test_report.actions ≠ [] ∧ Stepped c7final.test_report.actions :=
  C5_step_numbers env0 c7oracle "https://example.test" c7final (by decide)

/-! ### The hosting shell (`app.py`) -/

/-- An action entry of a report dict as the rendering shell receives it.
The `step`, `action` and `status` keys are present in every constructor
in the code; `url_after` is present only where the dict literal includes
it, hence the `Option`. -/
structure ShellRecord where
  step : Nat
  action : String
  status : String
  url_after : Option String
deriving DecidableEq

/-- A report dict as passed to `render_template('report.html', …)`. -/
structure ShellReport where
  url : String
  actions : List ShellRecord
  summary : String
deriving DecidableEq

/-- The response of the `/report` route: a redirect to the index page,
or the rendered report page with its `success` flag. -/
inductive ShellResponse where
  | redirectIndex
  | reportPage (report : ShellReport) (success : Bool)
deriving DecidableEq

/-- An agent-produced record as the shell sees it: all four keys. -/
def toShellRecord (r : ActionRecord) : ShellRecord :=
  { step := r.step, action := r.action, status := r.status, url_after := some r.url_after }

/-- An agent-produced report as the shell sees it. -/
def toShellReport (r : TestReport) : ShellReport :=
  { url := r.url, actions := r.actions.map toShellRecord, summary := r.summary }

/-- The message of the missing-credential report. -/
def setupErrorMsg : String :=
  "FATAL ERROR: GEMINI_API_KEY not found in environment. Did you set it in Railway Variables?"

/-- The single record of the missing-credential report — note: no
`url_after` key in the dict literal. -/
def setupRecord : ShellRecord :=
  { step := 1, action := setupErrorMsg, status := "FATAL_ERROR", url_after := none }

/-- The single record of the execution-failure report — note: no
`url_after` key in the dict literal. -/
def execFailRecord (e : String) : ShellRecord :=
  { step := 1,
    action := "FATAL ERROR during test execution: " ++ e ++ ". Check your Chrome WebDriver setup.",
    status := "FATAL_ERROR", url_after := none }

/-- Python truthiness of `os.getenv(...)` and `request.args.get(...)`:
`None` and the empty string are falsy. -/
def falsyOpt : Option String → Bool
  | none => true
  | some s => s == ""

/-- Model of `run_test_and_show_report` (`app.py`).  `runAgent` abstracts
`AITestingAgent(target_url)` followed by `.run_tests()`: constructing
the agent is what creates the browser session, and an exception from
the construction or the run is caught by the handler (`.error e`).  The
handler checks the credential before constructing the agent, so on the
falsy-credential path `runAgent` is never invoked. -/
def run_test_and_show_report (apiKey target_url : Option String)
    (runAgent : String → Except String TestReport) : ShellResponse :=
  if falsyOpt target_url then .redirectIndex
  else if falsyOpt apiKey then
    .reportPage { url := target_url.getD "", actions := [setupRecord], summary := "Setup Error" }
      false
  else
    match runAgent (target_url.getD "") with
    | .ok rep => .reportPage (toShellReport rep) true
    | .error e =>
      .reportPage
        { url := target_url.getD "",
          actions := [execFailRecord e],
          summary := "Execution Failed" } false

/-- A record has all four report fields (only `url_after` can be
missing; the other three are structurally always present). -/
def hasAllFields (r : ShellRecord) : Bool := r.url_after.isSome

/-- The report a response delivers to the rendering template, if any. -/
def deliveredReport? : ShellResponse → Option ShellReport
  | .redirectIndex => none
  | .reportPage rep _ => some rep

/-- C8: with a falsy credential and a requested URL, the handler never
invokes the agent (hence never creates a browser session — the response
is independent of the agent's behavior), and the caller receives the
setup-error report: summary `Setup Error`, a single `FATAL_ERROR`
record carrying the setup message. -/
theorem C8_missing_credential (apiKey : Option String) (u : String)
    (runA runB : String → Except String TestReport)
    (hkey : falsyOpt apiKey = true) (hu : (u == "") = false) :
    run_test_and_show_report apiKey (some u) runA
      = run_test_and_show_report apiKey (some u) runB
    ∧ run_test_and_show_report apiKey (some u) runA
        = .reportPage { url := u, actions := [setupRecord], summary := "Setup Error" } false := by
  have h1 : falsyOpt (some u) = false := by simp [falsyOpt, hu]
  unfold run_test_and_show_report
  simp [h1, hkey]

/-- An agent stub that fails. -/
def wRunA : String → Except String TestReport := fun _ => .error "boom"

/-- An agent stub that succeeds with an empty report. -/
def wRunB : String → Except String TestReport :=
  fun u => .ok { url := u, actions := [], summary := "" }

/-- Witness for C8 with the credential absent and a concrete URL. -/
theorem C8_missing_credential_witness :
    run_test_and_show_report none (some "http://x") wRunA
      = run_test_and_show_report none (some "http://x") wRunB
    ∧ run_test_and_show_report none (some "http://x") wRunA
        = .reportPage { url := "http://x", actions := [setupRecord], summary := "Setup Error" }
            false :=
  C8_missing_credential none "http://x" wRunA wRunB rfl rfl

/-- C9 (counterexample): the report delivered on the missing-credential
path has an action record without the `url_after` field, so not every
delivered record has all four fields. -/
theorem C9_counterexample :
    (deliveredReport? (run_test_and_show_report none (some "http://x") wRunA)).map
      (fun rep => rep.actions.all hasAllFields) = some false := by
  decide

/-- C9 (amended): every delivered report has the `{url, actions,
summary}` shape with `step`, `action` and `status` on every record;
records of a completed agent run also carry `url_after`, but the two
shell-constructed error reports (missing credential, execution failure)
deliver a single record without `url_after`. -/
theorem C9_amended_shape (apiKey target_url : Option String)
    (runAgent : String → Except String TestReport) :
    match run_test_and_show_report apiKey target_url runAgent with
    | .redirectIndex => True
    | .reportPage rep success =>
        (if success then rep.actions.all hasAllFields
         else rep.actions.length == 1 && rep.actions.all fun r => r.url_after.isNone) = true := by
  unfold run_test_and_show_report
  by_cases h1 : falsyOpt target_url
  · simp [h1]
  · by_cases h2 : falsyOpt apiKey
    · simp [h1, h2, setupRecord]
    · simp only [h1, h2, Bool.false_eq_true, if_false]
      cases hr : runAgent (target_url.getD "") with
      | ok rep =>
        simp [toShellReport, toShellRecord, hasAllFields, List.all_map, Function.comp]
      | error e =>
        simp [execFailRecord]

/-- C10: `report_action` never writes the report's `summary` or `url`
(frame property), the returned report's `url` is still the construction
URL, and a run that returns without any `FINISH` record — budget
exhaustion or a fatal dispatch error, i.e. `finish_testing` never
executed — still carries the empty summary set at construction. -/
theorem C10_summary_frame (env : Env) (oracle : Nat → ModelResult) (url : String)
    (b : Agent) (d st : String) (a' : Agent)
    (hrun : run_tests env oracle (initAgent url) = .returned a') :
    (report_action b d st).test_report.summary = b.test_report.summary
    ∧ (report_action b d st).test_report.url = b.test_report.url
    ∧ a'.test_report.url = url
    ∧ ((∀ r ∈ a'.test_report.actions, r.status ≠ "FINISH") → a'.test_report.summary = "") := by
  refine ⟨rfl, rfl, ?_, ?_⟩
  · obtain ⟨hu, -⟩ := evolves_run_tests env oracle _ _ hrun
    exact hu
  · intro hnof
    obtain ⟨-, t, he, hs⟩ := evolves_run_tests env oracle _ _ hrun
    rcases hs with hs | ⟨r, hr, hrs⟩
    · exact hs
    · exact absurd hrs (hnof r (by rw [he]; exact List.mem_append_right _ hr))

/-- A model that always answers a pure observation call: the run ends by
budget exhaustion, `finish_testing` never executes. -/
def c10oracle : Nat → ModelResult := fun _ => .ok "get_page_state()"

/-- The agent state at the end of the budget-exhaustion run. -/
def c10final : Agent := (run_tests env0 c10oracle (initAgent "https://example.test")).final

/-- Witness for C10 on a concrete budget-exhaustion run: the returned
summary is still the empty string and the url is the construction URL. -/
theorem C10_summary_frame_witness :
    c10final.test_report.url = "https://example.test"
    ∧ c10final.test_report.summary = "" :=
  ⟨(C10_summary_frame env0 c10oracle "https://example.test" (initAgent "x") "d" "PASS" c10final
      (by decide)).2.2.1,
   (C10_summary_frame env0 c10oracle "https://example.test" (initAgent "x") "d" "PASS" c10final
      (by decide)).2.2.2 (by decide)⟩

end AiAgent
